import Mathlib

/-!
Shallow embedding of the download orchestration engine of
`selenium_downloader_fixed.py` (repacks-script).

Strings are modelled as `List Char` so that every operation is a
structurally recursive, kernel-evaluable function.  Percent-decoding is
modelled at the byte level (each `%XX` escape becomes the character with
code `XX`); multi-byte UTF-8 escape sequences are outside the scope of
every claim.  All Python library helpers used by the script
(`urllib.parse.urlparse`, `unquote`, `unquote_plus`, `parse_qs`,
`os.path.splitext`, `str.strip`, `str.lower`, `in`, `endswith`) are
modelled here from their documented behaviour on ASCII input.
-/

namespace Repacks

/-- Python strings, modelled as lists of characters. -/
abbrev Str := List Char

/-- ASCII lowercasing of one character (model of `str.lower` / `re.I`
on the ASCII range used by the script). -/
def toLowerChar (c : Char) : Char :=
  if 'A' ≤ c ∧ c ≤ 'Z' then Char.ofNat (c.toNat + 32) else c

/-- Model of Python `str.lower()` (ASCII range). -/
def lower (s : Str) : Str := s.map toLowerChar

/-- The whitespace characters stripped by `str.strip()` and matched by
the regex class used in the script (ASCII range). -/
def pyIsSpace (c : Char) : Bool :=
  c == ' ' || c == '\t' || c == '\n' || c == '\r' ||
  c == Char.ofNat 11 || c == Char.ofNat 12

/-- Model of Python `str.strip()` (no arguments): remove leading and
trailing whitespace. -/
def pystrip (s : Str) : Str :=
  ((s.dropWhile pyIsSpace).reverse.dropWhile pyIsSpace).reverse

/-- Characters kept by `str.split(sep)[0]`: everything before the first
occurrence of `sep`. -/
def takeUntilChar (sep : Char) (s : Str) : Str :=
  s.takeWhile (fun c => !(c == sep))

/-- The part of a string after its last `'/'` (the whole string when
there is none): Python `s.split("/")[-1]`. -/
def lastSegment (s : Str) : Str :=
  (s.reverse.takeWhile (fun c => !(c == '/'))).reverse

/-- Split at the first occurrence of `sep`: Python `s.split(sep, 1)`.
The second component is `none` when `sep` does not occur. -/
def splitOnceChar (sep : Char) : Str → Str × Option Str
  | [] => ([], none)
  | c :: rest =>
    if c == sep then ([], some rest)
    else
      let r := splitOnceChar sep rest
      (c :: r.1, r.2)

/-- Split at every occurrence of `sep`: Python `s.split(sep)`
(so `"" ↦ [""]` and separators at the ends produce empty pieces). -/
def splitAllChar (sep : Char) : Str → List Str
  | [] => [[]]
  | c :: rest =>
    let r := splitAllChar sep rest
    if c == sep then [] :: r
    else
      match r with
      | [] => [[c]]
      | piece :: rest' => (c :: piece) :: rest'

/-- Python substring test `sub in s`. -/
def containsSub (sub : Str) : Str → Bool
  | [] => sub.isEmpty
  | c :: rest => sub.isPrefixOf (c :: rest) || containsSub sub rest

/-- Index of the last character satisfying `p` (model of `str.rfind`
restricted to a character class). -/
def lastIndexOf (p : Char → Bool) : Str → Option Nat
  | [] => none
  | c :: rest =>
    match lastIndexOf p rest with
    | some i => some (i + 1)
    | none => if p c then some 0 else none

def isHexDigit (c : Char) : Bool :=
  c.isDigit || ('a' ≤ c ∧ c ≤ 'f') || ('A' ≤ c ∧ c ≤ 'F')

def hexVal (c : Char) : Nat :=
  if c.isDigit then c.toNat - '0'.toNat
  else if 'a' ≤ c ∧ c ≤ 'f' then c.toNat - 'a'.toNat + 10
  else c.toNat - 'A'.toNat + 10

/-- Model of `urllib.parse.unquote` at the byte level: every valid
`%XX` escape becomes the character with code `XX`; invalid escapes are
kept verbatim (as CPython does). -/
def unquoteL : Str → Str
  | '%' :: a :: b :: rest =>
    if isHexDigit a ∧ isHexDigit b then
      Char.ofNat (16 * hexVal a + hexVal b) :: unquoteL rest
    else '%' :: unquoteL (a :: b :: rest)
  | c :: rest => c :: unquoteL rest
  | [] => []

/-- Model of `urllib.parse.unquote_plus`: `'+'` becomes a space, then
percent-escapes are decoded. -/
def unquotePlusL (s : Str) : Str :=
  unquoteL (s.map fun c => if c = '+' then ' ' else c)

/-- The components produced by `urllib.parse.urlparse` that the script
reads (`params` is never consulted and is omitted). -/
structure UrlParts where
  scheme : Str
  netloc : Str
  path : Str
  query : Str
  fragment : Str

def isSchemeChar (c : Char) : Bool :=
  c.isAlphanum || c == '+' || c == '-' || c == '.'

/-- Model of `urllib.parse.urlsplit`/`urlparse` (CPython): first the
scheme is split off at the first `':'` when the piece before it starts
with an ASCII letter and consists of scheme characters, then a leading
`"//"` introduces the netloc (up to the next `'/'`, `'?'` or `'#'`),
then the fragment is split at the first `'#'`, then the query at the
first `'?'`; the rest is the path. -/
def urlparse (url : Str) : UrlParts :=
  let schemeSplit :=
    match splitOnceChar ':' url with
    | (c :: pre, some after) =>
      if c.isAlpha ∧ (c :: pre).all isSchemeChar
      then (lower (c :: pre), after) else (([] : Str), url)
    | _ => (([] : Str), url)
  let rest1 := schemeSplit.2
  let netlocSplit :=
    match rest1 with
    | '/' :: '/' :: r =>
      (r.takeWhile (fun c => !(c == '/' || c == '?' || c == '#')),
       r.dropWhile (fun c => !(c == '/' || c == '?' || c == '#')))
    | _ => (([] : Str), rest1)
  let rest2 := netlocSplit.2
  let fragSplit :=
    match splitOnceChar '#' rest2 with
    | (b, some a) => (b, a)
    | (b, none) => (b, ([] : Str))
  let querySplit :=
    match splitOnceChar '?' fragSplit.1 with
    | (b, some a) => (b, a)
    | (b, none) => (b, ([] : Str))
  ⟨schemeSplit.1, netlocSplit.1, querySplit.1, querySplit.2, fragSplit.2⟩

/-- Step 1 of `get_filename_from_url` (source lines 265-271): the last
path segment, percent-decoded, cut at `'#'` then `'?'`, stripped;
accepted when non-empty, containing `'.'` and not ending in `'/'` or
`'\\'`. -/
def pathCandidate (path : Str) : Option Str :=
  if path = [] then none
  else
    let cand := pystrip (takeUntilChar '?' (takeUntilChar '#' (unquoteL (lastSegment path))))
    if cand ≠ [] ∧ cand.contains '.' ∧ cand.getLast? ≠ some '/' ∧ cand.getLast? ≠ some '\\'
    then some cand else none

/-- Model of `urllib.parse.parse_qsl` with default arguments: split the
query at `'&'`, drop empty pieces, drop pieces without `'='`, drop
pairs with an empty value, and plus/percent-decode names and values. -/
def parse_qsl (q : Str) : List (Str × Str) :=
  (splitAllChar '&' q).filterMap fun nv =>
    if nv = [] then none
    else
      match splitOnceChar '=' nv with
      | (_, none) => none
      | (n, some v) =>
        if v = [] then none else some (unquotePlusL n, unquotePlusL v)

/-- Step 2 of `get_filename_from_url` (source lines 274-279): the first
of the known query keys that is present, its first value decoded once
more with `unquote_plus` and stripped, accepted when it contains
`'.'`. -/
def queryCandidate (q : Str) : Option Str :=
  let qs := parse_qsl q
  [("file").toList, ("filename").toList, ("name").toList,
   ("attachment").toList, ("download").toList, ("title").toList].findSome?
    fun key =>
      match qs.find? (fun p => p.1 == key) with
      | none => none
      | some pr =>
        let cand := pystrip (unquotePlusL pr.2)
        if cand ≠ [] ∧ cand.contains '.' then some cand else none

/-- Step 3 of `get_filename_from_url` (source lines 282-286): the
fragment, when it contains `'.'`; its last `/`-segment decoded and
stripped, accepted when it still contains `'.'`. -/
def fragCandidate (frag : Str) : Option Str :=
  if frag ≠ [] ∧ frag.contains '.' then
    let fc := pystrip (unquoteL (lastSegment frag))
    if fc ≠ [] ∧ fc.contains '.' then some fc else none
  else none

/-- `get_filename_from_url` (source lines 249-321).  The step-4 network
probe (a HEAD request plus Content-Disposition parsing, lines 288-316)
is external I/O and is modelled as a parameter: `Except.error ()` is an
exception inside the probe block (swallowed by its handler),
`Except.ok none` is a probe that yields no filename, and
`Except.ok (some f)` is a probe from which the block returns `f`. -/
def get_filename_from_url (url : Str) (probe : Except Unit (Option Str)) : Option Str :=
  if url = [] then none
  else
    let p := urlparse (pystrip url)
    match pathCandidate p.path with
    | some c => some c
    | none =>
      match queryCandidate p.query with
      | some c => some c
      | none =>
        match fragCandidate p.fragment with
        | some c => some c
        | none =>
          match probe with
          | Except.ok (some f) => some f
          | _ => none

/-- Model of `os.path.splitext` (CPython `genericpath._splitext` with
the Windows separators `'\\'` and `'/'`): split at the last dot, unless
that dot lies before the last separator or the basename consists only
of dots up to it. -/
def splitext (s : Str) : Str × Str :=
  match lastIndexOf (fun c => c == '.') s with
  | none => (s, [])
  | some d =>
    let fi :=
      match lastIndexOf (fun c => c == '/' || c == '\\') s with
      | some i => i + 1
      | none => 0
    if (match lastIndexOf (fun c => c == '/' || c == '\\') s with
        | some i => decide (i < d)
        | none => true)
       && ((s.take d).drop fi).any (fun c => !(c == '.'))
    then (s.take d, s.drop d) else (s, [])

/-- Remove a suffix, reporting failure: helper for anchored regex
matching. -/
def removeEnd? (suf s : Str) : Option Str :=
  if suf.isSuffixOf s then some (s.take (s.length - suf.length)) else none

/-- Does `s` match the duplicate-marker piece of the strict pattern of
`check_file_exists` (the regex piece `\s*\(\d+\)` in source line 392)? -/
def isDupMarker (s : Str) : Bool :=
  match s.dropWhile pyIsSpace with
  | '(' :: rest =>
    (match rest.reverse with
     | ')' :: mid => mid ≠ [] ∧ mid.all Char.isDigit
     | _ => false)
  | _ => false

/-- The strict pattern of `check_file_exists` (source line 392): a full
case-insensitive match of
`base`, optional `\s*\(\d+\)`, `ext`, optional temp extension. -/
def patternMatch (base ext fname : Str) : Bool :=
  let f := lower fname
  let b := lower base
  let e := lower ext
  [([] : Str), (".crdownload").toList, (".part").toList, (".tmp").toList].any
    fun temp =>
      match removeEnd? (e ++ temp) f with
      | none => false
      | some rest =>
        b.isPrefixOf rest ∧
          (rest.drop b.length = [] ∨ isDupMarker (rest.drop b.length))

/-- Remove a trailing duplicate marker: the substitution
`re.sub(r"\s*\(\d+\)$", "", stem)` of source line 407. -/
def stripTrailDup (s : Str) : Str :=
  match s.reverse with
  | ')' :: r1 =>
    let digits := r1.takeWhile Char.isDigit
    if digits ≠ [] then
      match r1.drop digits.length with
      | '(' :: r3 => (r3.dropWhile pyIsSpace).reverse
      | _ => s
    else s
  | _ => s

/-- One entry of the fallback pass of `check_file_exists` (source lines
398-409): the lowercased name must end with the extension or the
extension plus a temp suffix; the remaining stem, with a trailing
duplicate marker removed and stripped, must contain the lowercased base
as a substring. -/
def fallbackHit (base ext fname : Str) : Bool :=
  let lf := lower fname
  [ext, ext ++ (".crdownload").toList, ext ++ (".part").toList,
   ext ++ (".tmp").toList].any fun fe =>
    if (lower fe).isSuffixOf lf then
      containsSub (lower base) (pystrip (stripTrailDup (lf.take (lf.length - fe.length))))
    else false

/-- The fallback scan over the directory entries, returning the first
hit (the second `os.listdir` loop of `check_file_exists`). -/
def fallbackScan (base ext : Str) : List Str → Option Str
  | [] => none
  | f :: rest => if fallbackHit base ext f then some f else fallbackScan base ext rest

/-- `check_file_exists` (source lines 363-414).  The directory listing
(`os.listdir`, called twice on the same directory) is a parameter;
`Except.error ()` models a listing that raises (for example a missing
directory), which the enclosing handler turns into `None`. -/
def check_file_exists (listing : Except Unit (List Str)) (url : Str)
    (probe : Except Unit (Option Str)) : Option Str :=
  match get_filename_from_url url probe with
  | none => none
  | some hint0 =>
    let hint := pystrip hint0
    let be := splitext hint
    if be.2 = [] then none
    else
      match listing with
      | Except.error _ => none
      | Except.ok files =>
        match files.find? (fun f => patternMatch be.1 be.2 f) with
        | some f => some f
        | none => fallbackScan be.1 be.2 files

/-- Does the filename carry one of the temp extensions
`.crdownload`, `.part`, `.tmp` (the case-sensitive `endswith` test of
source line 211)? -/
def tempName (f : Str) : Bool :=
  (".crdownload").toList.isSuffixOf f || (".part").toList.isSuffixOf f ||
  (".tmp").toList.isSuffixOf f

/-- The observable filesystem behaviour during one iteration of the
polling loop of `wait_for_download_complete`:
`listing` is what `os.listdir` returns at the top of the iteration
(an `os.listdir` that raises is modelled by `listing = []`, exactly the
`except` branch of source lines 203-206);
`initSize fn` is the size obtained at the head of the stability loop
(`none` when `fp.exists()` is false and the entry is skipped);
`samples fn k` is the size returned by the `k`-th `os.path.getsize`
call of the stability window for `fn`, with `none` modelling a call
that raises;
`recheckListing` is the listing seen by the mid-loop
`check_file_exists` call.
Python iterates `new_files` (a `set`) in an unspecified order; the
model fixes the listing order. -/
structure PollCycle where
  listing : List Str
  initSize : Str → Option Int
  samples : Str → Nat → Option Int
  recheckListing : Except Unit (List Str)

/-- The stability window of source lines 223-233: starting from `size`,
take `checks` further samples; a sample that raises (`none`) is
replaced by the previous size; any differing sample stops the loop with
`stable = False`. -/
def stableScan : Nat → Int → (Nat → Option Int) → Nat → Bool
  | 0, _, _, _ => true
  | checks + 1, size, f, i =>
    let ns := (f i).getD size
    if ns = size then stableScan checks ns f (i + 1) else false

/-- The new entries of a cycle: `current - before_files`
(source line 208). -/
def newFilesOf (before : List Str) (c : PollCycle) : List Str :=
  c.listing.filter (fun f => !(before.contains f))

/-- The per-file loop of source lines 218-235: the first new entry that
exists and passes the stability window. -/
def firstStable (checks : Nat) (c : PollCycle) : List Str → Option Str
  | [] => none
  | fn :: rest =>
    match c.initSize fn with
    | none => firstStable checks c rest
    | some sz =>
      if stableScan checks sz (c.samples fn) 0 then some fn
      else firstStable checks c rest

/-- One iteration of the polling loop (source lines 202-243): if any new
entry still carries a temp extension the iteration only waits; otherwise
the first stable new file is returned; otherwise, when a target address
was supplied, the mid-loop `check_file_exists` result is returned. -/
def cycleStep (before : List Str) (url : Option Str)
    (probe : Except Unit (Option Str)) (checks : Nat) (c : PollCycle) : Option Str :=
  let newf := newFilesOf before c
  if newf.any tempName then none
  else
    match firstStable checks c newf with
    | some fn => some fn
    | none =>
      match url with
      | some u => check_file_exists c.recheckListing u probe
      | none => none

/-- The polling loop; the `timeout` of the source is modelled by the
finite list of iterations, and exhausting it returns `None`. -/
def watchLoop (before : List Str) (url : Option Str)
    (probe : Except Unit (Option Str)) (checks : Nat) : List PollCycle → Option Str
  | [] => none
  | c :: rest =>
    match cycleStep before url probe checks c with
    | some fn => some fn
    | none => watchLoop before url probe checks rest

/-- `wait_for_download_complete` (source lines 187-245): the pre-check
via `check_file_exists` (lines 196-200, using the listing
`preListing`), then the polling loop. -/
def wait_for_download_complete (before : List Str) (url : Option Str)
    (probe : Except Unit (Option Str)) (preListing : Except Unit (List Str))
    (checks : Nat) (cycles : List PollCycle) : Option Str :=
  match url with
  | some u =>
    match check_file_exists preListing u probe with
    | some e => some e
    | none => watchLoop before url probe checks cycles
  | none => watchLoop before url probe checks cycles

/-- The value returned by `click_download_button`: `ok b` models the
Python booleans, `sessionExpired` the string `"SESSION_EXPIRED"`. -/
inductive ClickResult where
  | ok (b : Bool)
  | sessionExpired
deriving DecidableEq

/-- The external behaviour of one `click_download_button` call:
`exception = some b` models an exception escaping to the outer handler
of source lines 519-523, where `b` tells whether `str(e)` contains
`"session"`; `sessionAlive` is the `driver.current_url` probe of line
446; `buttonFound` is `find_download_button` (line 466); `clickOk` is
whether one of the three click strategies succeeded (lines 474-498);
the remaining fields feed `wait_for_download_complete`. -/
structure ClickEnv where
  exception : Option Bool
  sessionAlive : Bool
  buttonFound : Bool
  clickOk : Bool
  filesBefore : List Str
  preListing : Except Unit (List Str)
  cycles : List PollCycle

/-- `click_download_button` (source lines 438-523).  Note the branch on
the watcher result: when a completed download is reported the source
prints a success message, but the `return True` of the original success
path is commented out (lines 507-514), so control falls through to
`return False` (line 517) in both cases. -/
def click_download_button (url : Str) (probe : Except Unit (Option Str))
    (env : ClickEnv) : ClickResult :=
  match env.exception with
  | some mentionsSession =>
    if mentionsSession then ClickResult.sessionExpired else ClickResult.ok false
  | none =>
    if env.sessionAlive = false then ClickResult.sessionExpired
    else if env.buttonFound = false then ClickResult.ok false
    else if env.clickOk = false then ClickResult.ok false
    else
      match wait_for_download_complete env.filesBefore (some url) probe
              env.preListing 3 env.cycles with
      | some _ => ClickResult.ok false
      | none => ClickResult.ok false

/-- Everything the environment decides for one link of the main loop of
`run`: the link itself, its probe, the directory listing seen by the
`check_file_exists` call of line 625, and the behaviour of the first
click attempt and of the retry after a session restart. -/
structure LinkScript where
  url : Str
  probe : Except Unit (Option Str)
  dirListing : Except Unit (List Str)
  click1 : ClickEnv
  click2 : ClickEnv

/-- The mutable counters of `run` (source lines 601-604):
`successful`, `failed`, `skipped` and `downloads_since_refresh`. -/
structure RunState where
  successful : Nat
  failed : Nat
  skipped : Nat
  dsr : Nat
deriving DecidableEq

def initState : RunState := ⟨0, 0, 0, 0⟩

/-- The session-refresh predicate of source line 636:
`downloads_since_refresh >= args.session_refresh`. -/
def shouldRefresh (dsr N : Nat) : Bool := N ≤ dsr

/-- Observable actions of one loop iteration, with the value of
`downloads_since_refresh` at the moment of each trigger attempt. -/
inductive Event where
  | skippedFile
  | refresh
  | trigger (dsrAt : Nat)
  | recordedSuccess
  | recordedFailure
deriving DecidableEq

/-- One iteration of the main loop of `run` (source lines 620-667):
check `check_file_exists`; on a hit count a skip.  Otherwise refresh the
session when the threshold is met (resetting the counter, lines
636-644), attempt the click; on `"SESSION_EXPIRED"` restart the session
(again resetting the counter) and retry exactly once (lines 646-656);
count a success (incrementing the counter, lines 658-660) only when the
result is `True`, otherwise count a failure (line 662). -/
def stepLink (N : Nat) (st : RunState) (ls : LinkScript) : RunState × List Event :=
  match check_file_exists ls.dirListing ls.url ls.probe with
  | some _ => ({ st with skipped := st.skipped + 1 }, [Event.skippedFile])
  | none =>
    let st1 := if shouldRefresh st.dsr N then { st with dsr := 0 } else st
    let evs1 : List Event := if shouldRefresh st.dsr N then [Event.refresh] else []
    let r1 := click_download_button ls.url ls.probe ls.click1
    let afterTrig :=
      match r1 with
      | ClickResult.sessionExpired =>
        (click_download_button ls.url ls.probe ls.click2,
         { st1 with dsr := 0 },
         evs1 ++ [Event.trigger st1.dsr, Event.refresh, Event.trigger 0])
      | r => (r, st1, evs1 ++ [Event.trigger st1.dsr])
    match afterTrig with
    | (ClickResult.ok true, st2, evs2) =>
      ({ st2 with successful := st2.successful + 1, dsr := st2.dsr + 1 },
       evs2 ++ [Event.recordedSuccess])
    | (_, st2, evs2) =>
      ({ st2 with failed := st2.failed + 1 }, evs2 ++ [Event.recordedFailure])

/-- The main loop of `run`, folding `stepLink` over the links. -/
def runLoop (N : Nat) : RunState → List LinkScript → RunState
  | st, [] => st
  | st, ls :: rest => runLoop N (stepLink N st ls).1 rest

/-- How the `run` invocation ends: `normal` is a loop that runs to
completion; `interrupted k` is a `KeyboardInterrupt` and `fatal k` any
other exception, each arriving after `k` links were processed (the
handlers of source lines 688-693). -/
inductive Termination where
  | normal
  | interrupted (k : Nat)
  | fatal (k : Nat)

/-- `run` (source lines 565-700), observed through its final counters
and whether the summary table of lines 669-686 is printed.  With no
links the function returns early at line 596 (printing only an error);
the summary is printed only when the loop body of the `try` block runs
to completion, since the `except` handlers print only a message. -/
def runModel (N : Nat) (links : List LinkScript) (t : Termination) : RunState × Bool :=
  if links.isEmpty then (initState, false)
  else
    match t with
    | Termination.normal => (runLoop N initState links, true)
    | Termination.interrupted k => (runLoop N initState (links.take k), false)
    | Termination.fatal k => (runLoop N initState (links.take k), false)

/-- Number of trigger attempts in an event list. -/
def countTriggers (evs : List Event) : Nat :=
  evs.countP fun e => match e with | Event.trigger _ => true | _ => false

/-! Concrete scenario data used by the counterexamples and witnesses. -/

def urlGame : Str := ("https://x.test/dl/game.rar").toList
def urlMovie : Str := ("https://x.test/dl/movie.rar").toList
def urlOther : Str := ("https://x.test/dl/other.rar").toList
def probeNone : Except Unit (Option Str) := Except.ok none

/-- A poll cycle in which `movie.rar` appears and keeps a constant size
across the whole stability window. -/
def movieCycle : PollCycle where
  listing := [("movie.rar").toList]
  initSize := fun f => if f = ("movie.rar").toList then some 100 else none
  samples := fun _ _ => some 100
  recheckListing := Except.ok []

/-- A click attempt that raises an exception whose message does not
mention the session. -/
def envPlainFail : ClickEnv where
  exception := some false
  sessionAlive := true
  buttonFound := true
  clickOk := true
  filesBefore := []
  preListing := Except.ok []
  cycles := []

/-- A click attempt that raises a session-related exception. -/
def envSessionDead : ClickEnv := { envPlainFail with exception := some true }

/-- A click attempt during which the download completes and stabilizes
(`movie.rar`). -/
def envCompletes : ClickEnv where
  exception := none
  sessionAlive := true
  buttonFound := true
  clickOk := true
  filesBefore := []
  preListing := Except.ok []
  cycles := [movieCycle]

/-- A click attempt whose download never completes (timeout). -/
def envTimeout : ClickEnv := { envCompletes with cycles := [] }

/-- Link already matched by an existing file in the directory. -/
def lsExisting : LinkScript :=
  ⟨urlGame, probeNone, Except.ok [("game.rar").toList], envPlainFail, envPlainFail⟩

/-- Link whose first trigger dies with a session error and whose retry
completes the download. -/
def lsRetry : LinkScript :=
  ⟨urlMovie, probeNone, Except.ok [], envSessionDead, envCompletes⟩

/-- Link whose download times out. -/
def lsTimeoutLink : LinkScript :=
  ⟨urlOther, probeNone, Except.ok [], envTimeout, envTimeout⟩

/-- A poll cycle in which the new file `game.rar` is still growing: its
first stability sample (20) differs from the initial size (10), and the
mid-loop recheck sees it in the directory. -/
def unstableCycle : PollCycle where
  listing := [("game.rar").toList]
  initSize := fun f => if f = ("game.rar").toList then some 10 else none
  samples := fun _ _ => some 20
  recheckListing := Except.ok [("game.rar").toList]

/-- A poll cycle in which the new file `video.rar` exists at the head of
the stability loop and then disappears, so every size sample raises. -/
def vanishCycle : PollCycle where
  listing := [("video.rar").toList]
  initSize := fun f => if f = ("video.rar").toList then some 5 else none
  samples := fun _ _ => none
  recheckListing := Except.ok []

/-! Helper lemmas. -/

/-- A file returned by the per-file stability loop passed the whole
stability window starting from its initial size. -/
lemma firstStable_some_stable {checks : Nat} {c : PollCycle} {l : List Str} {fn : Str}
    (h : firstStable checks c l = some fn) :
    ∃ sz, c.initSize fn = some sz ∧ stableScan checks sz (c.samples fn) 0 = true := by
  induction l with
  | nil => simp [firstStable] at h
  | cons hd tl ih =>
    unfold firstStable at h
    cases hsz : c.initSize hd with
    | none => rw [hsz] at h; exact ih h
    | some sz =>
      rw [hsz] at h
      dsimp only at h
      by_cases hs : stableScan checks sz (c.samples hd) 0 = true
      · rw [if_pos hs] at h
        cases h
        exact ⟨sz, hsz, hs⟩
      · rw [if_neg hs] at h
        exact ih h

/-- The fallback scan only returns directory entries. -/
lemma fallbackScan_mem {base ext : Str} {files : List Str} {f : Str}
    (h : fallbackScan base ext files = some f) : f ∈ files := by
  induction files with
  | nil => simp [fallbackScan] at h
  | cons hd tl ih =>
    unfold fallbackScan at h
    split at h
    · cases h; exact List.mem_cons_self _ _
    · exact List.mem_cons_of_mem _ (ih h)

/-! Claim theorems. -/

/-- C1: in the three-address scenario the code does NOT produce the
tally the claim states.  Even though the completion watcher reports the
filename `movie.rar` for the retried address, `click_download_button`
returns `False` (its `return True` on the success path is commented
out in the source), so `run` records the address as failed: the final
tally is `successful = 0, failed = 2, skipped = 1`, not
`successful = 1, failed = 1, skipped = 1`. -/
theorem c1_completed_download_not_tallied :
    wait_for_download_complete envCompletes.filesBefore (some urlMovie) probeNone
      envCompletes.preListing 3 envCompletes.cycles = some (("movie.rar").toList) ∧
    click_download_button urlMovie probeNone envCompletes = ClickResult.ok false ∧
    runLoop 10 initState [lsExisting, lsRetry, lsTimeoutLink] = ⟨0, 2, 1, 0⟩ :=
  ⟨by decide, by decide, by decide⟩

/-- C2 counterexample: a run interrupted by the user after one address
has recorded a failed outcome (`failed = 1`), yet the summary table is
not printed, so the partial tally is not reported. -/
theorem c2_interrupted_run_reports_no_tally :
    runModel 10 [lsTimeoutLink] (Termination.interrupted 1) = (⟨0, 1, 0, 0⟩, false) := by
  decide

/-- C2 amended: the final tally is reported exactly when the run
terminates normally with a non-empty link list; after a user
cancellation or a fatal error only a message is printed and the
accumulated tally is not reported. -/
theorem c2_tally_reported_iff_normal_completion (N : Nat) (links : List LinkScript)
    (t : Termination) :
    (runModel N links t).2 = true ↔ (t = Termination.normal ∧ links ≠ []) := by
  cases links <;> cases t <;> simp [runModel]

/-- C3 counterexample: with `gameplay.rar` as the only directory entry
and an address resolving to `game.rar`, the matcher returns a match
(`gameplay.rar`, found by the fallback substring pass), not "no
match". -/
theorem c3_gameplay_is_matched :
    check_file_exists (Except.ok [("gameplay.rar").toList]) urlGame probeNone =
      some (("gameplay.rar").toList) := by
  decide

/-- C3 amended: the matcher returns a match for each of the entries
`game.rar`, `game (1).rar`, `game.rar.crdownload` and
`game (2).rar.part`; it also matches the entry `gameplay.rar` through
the fallback substring pass (since `game` is a substring of its stem),
rather than returning no match for it. -/
theorem c3_matcher_on_variants :
    check_file_exists (Except.ok [("game.rar").toList]) urlGame probeNone =
      some (("game.rar").toList) ∧
    check_file_exists (Except.ok [("game (1).rar").toList]) urlGame probeNone =
      some (("game (1).rar").toList) ∧
    check_file_exists (Except.ok [("game.rar.crdownload").toList]) urlGame probeNone =
      some (("game.rar.crdownload").toList) ∧
    check_file_exists (Except.ok [("game (2).rar.part").toList]) urlGame probeNone =
      some (("game (2).rar.part").toList) ∧
    check_file_exists (Except.ok [("gameplay.rar").toList]) urlGame probeNone ≠ none :=
  ⟨by decide, by decide, by decide, by decide, by decide⟩

/-- C4 counterexample: with a target address supplied (as at the only
call site), a poll cycle in which the new file's sampled size (20)
differs from the previous sample (10) can still return that very file
in the same cycle: the mid-cycle `check_file_exists` recheck matches
the new, still-changing `game.rar` against the address pattern. -/
theorem c4_changing_file_returned_same_cycle :
    stableScan 3 10 (unstableCycle.samples (("game.rar").toList)) 0 = false ∧
    wait_for_download_complete [] (some urlGame) probeNone (Except.ok []) 3
      [unstableCycle] = some (("game.rar").toList) :=
  ⟨by decide, by decide⟩

/-- C4 amended: through the new-file stability path a file whose
stability window fails (a sampled size differs) is never returned in
that cycle; when no target address is supplied a cycle that finds
nothing makes polling continue with the next cycle.  (With a target
address, the mid-cycle existing-file recheck can still return a file
matching the address pattern in the same cycle, as the counterexample
shows.) -/
theorem c4_stability_required_without_target (checks : Nat) (c : PollCycle)
    (before : List Str) (probe : Except Unit (Option Str)) (fn : Str) (sz : Int)
    (rest : List PollCycle)
    (hsz : c.initSize fn = some sz)
    (hub : stableScan checks sz (c.samples fn) 0 = false) :
    cycleStep before none probe checks c ≠ some fn ∧
    (cycleStep before none probe checks c = none →
      watchLoop before none probe checks (c :: rest) =
        watchLoop before none probe checks rest) := by
  constructor
  · intro hcontra
    simp only [cycleStep] at hcontra
    split at hcontra
    · exact Option.noConfusion hcontra
    · cases hfs : firstStable checks c (newFilesOf before c) with
      | none => rw [hfs] at hcontra; exact Option.noConfusion hcontra
      | some gn =>
        rw [hfs] at hcontra
        cases hcontra
        obtain ⟨sz', hsz', hstable⟩ := firstStable_some_stable hfs
        rw [hsz] at hsz'
        cases hsz'
        rw [hstable] at hub
        exact Bool.noConfusion hub
  · intro hnone
    show (match cycleStep before none probe checks c with
          | some fn => some fn
          | none => watchLoop before none probe checks rest) =
         watchLoop before none probe checks rest
    rw [hnone]

/-- C4 witness. -/
theorem c4_stability_required_without_target_witness :
    cycleStep [] none probeNone 3 unstableCycle ≠ some (("game.rar").toList) ∧
    (cycleStep [] none probeNone 3 unstableCycle = none →
      watchLoop [] none probeNone 3 [unstableCycle] =
        watchLoop [] none probeNone 3 []) :=
  c4_stability_required_without_target 3 unstableCycle [] probeNone
    (("game.rar").toList) 10 [] (by decide) (by decide)

/-- C5: the refresh predicate of the loop is
`downloads_since_refresh >= N`; it holds as soon as the counter reaches
exactly `N`, it keeps holding as further successes increment the
counter, it does not hold for the reset counter 0 (for `N ≥ 1`), and in
an iteration entered with the counter at `N` the loop refreshes the
session before the trigger is attempted, which is attempted with the
counter reset to 0. -/
theorem c5_refresh_threshold (N : Nat) (st : RunState) (ls : LinkScript) (c : Nat)
    (hN : 1 ≤ N) (hdsr : st.dsr = N)
    (hc : shouldRefresh c N = true)
    (hex : check_file_exists ls.dirListing ls.url ls.probe = none) :
    shouldRefresh st.dsr N = true ∧
    shouldRefresh (c + 1) N = true ∧
    shouldRefresh 0 N = false ∧
    (∃ tail, (stepLink N st ls).2 = Event.refresh :: Event.trigger 0 :: tail) := by
  have hsr : shouldRefresh st.dsr N = true := by
    simp [shouldRefresh, hdsr]
  refine ⟨hsr, ?_, ?_, ?_⟩
  · simp only [shouldRefresh, decide_eq_true_eq] at hc ⊢
    omega
  · simp only [shouldRefresh, decide_eq_false_iff_not]
    omega
  · unfold stepLink
    rw [hex]
    cases hr1 : click_download_button ls.url ls.probe ls.click1 with
    | sessionExpired =>
      cases hr2 : click_download_button ls.url ls.probe ls.click2 with
      | sessionExpired =>
        simp only [hsr, if_true, List.cons_append, List.nil_append]
        exact ⟨_, rfl⟩
      | ok b =>
        cases b <;>
          · simp only [hsr, if_true, List.cons_append, List.nil_append]
            exact ⟨_, rfl⟩
    | ok b =>
      cases b <;>
        · simp only [hsr, if_true, List.cons_append, List.nil_append]
          exact ⟨_, rfl⟩

/-- C5 witness. -/
theorem c5_refresh_threshold_witness :
    shouldRefresh (⟨0, 0, 0, 2⟩ : RunState).dsr 2 = true ∧
    shouldRefresh (5 + 1) 2 = true ∧
    shouldRefresh 0 2 = false ∧
    (∃ tail, (stepLink 2 ⟨0, 0, 0, 2⟩
        ⟨[], probeNone, Except.ok [], envPlainFail, envPlainFail⟩).2 =
      Event.refresh :: Event.trigger 0 :: tail) :=
  c5_refresh_threshold 2 ⟨0, 0, 0, 2⟩
    ⟨[], probeNone, Except.ok [], envPlainFail, envPlainFail⟩ 5
    (by decide) rfl (by decide) (by decide)

/-- C6: when the first trigger attempt for an address signals session
death, the iteration performs exactly two trigger attempts (the retry
after refresh); when the retry does not return `True` the address is
recorded as failed; and the loop then continues with the remaining
addresses from the resulting state. -/
theorem c6_session_dead_retry_once (N : Nat) (st : RunState) (ls : LinkScript)
    (rest : List LinkScript)
    (hex : check_file_exists ls.dirListing ls.url ls.probe = none)
    (hr1 : click_download_button ls.url ls.probe ls.click1 = ClickResult.sessionExpired)
    (hr2 : click_download_button ls.url ls.probe ls.click2 ≠ ClickResult.ok true) :
    countTriggers (stepLink N st ls).2 = 2 ∧
    (stepLink N st ls).1.failed = st.failed + 1 ∧
    runLoop N st (ls :: rest) = runLoop N (stepLink N st ls).1 rest := by
  refine ⟨?_, ?_, rfl⟩ <;>
  · unfold stepLink
    rw [hex]
    cases hr2' : click_download_button ls.url ls.probe ls.click2 with
    | sessionExpired =>
      by_cases hsr : shouldRefresh st.dsr N = true <;>
        simp [hsr, hr1, hr2', countTriggers]
    | ok b =>
      cases b with
      | true => exact absurd hr2' hr2
      | false =>
        by_cases hsr : shouldRefresh st.dsr N = true <;>
          simp [hsr, hr1, hr2', countTriggers]

/-- C6 witness. -/
theorem c6_session_dead_retry_once_witness :
    countTriggers (stepLink 10 initState
      ⟨[], probeNone, Except.ok [], envSessionDead, envPlainFail⟩).2 = 2 ∧
    (stepLink 10 initState
      ⟨[], probeNone, Except.ok [], envSessionDead, envPlainFail⟩).1.failed =
      initState.failed + 1 ∧
    runLoop 10 initState [⟨[], probeNone, Except.ok [], envSessionDead, envPlainFail⟩] =
      runLoop 10 (stepLink 10 initState
        ⟨[], probeNone, Except.ok [], envSessionDead, envPlainFail⟩).1 [] :=
  c6_session_dead_retry_once 10 initState
    ⟨[], probeNone, Except.ok [], envSessionDead, envPlainFail⟩ []
    (by decide) (by decide) (by decide)

/-- C7: whenever the first resolution rule produces a candidate — the
last path segment of the (stripped) address, percent-decoded, cut at a
trailing fragment/query, non-empty, containing a dot and not ending in
a path separator — the resolver returns exactly that candidate,
regardless of the probe. -/
theorem c7_path_rule_first (url : Str) (probe : Except Unit (Option Str)) (cand : Str)
    (hne : url ≠ [])
    (h : pathCandidate (urlparse (pystrip url)).path = some cand) :
    get_filename_from_url url probe = some cand := by
  simp only [get_filename_from_url, if_neg hne, h]

/-- C7 witness: the example address of the spec resolves to
`Forza Horizon.rar`. -/
theorem c7_path_rule_first_witness :
    get_filename_from_url (("https://x.test/dl/Forza%20Horizon.rar?ref=1").toList)
      probeNone = some (("Forza Horizon.rar").toList) :=
  c7_path_rule_first _ probeNone _ (by decide) (by decide)

/-- C8: the resolver is a total function into `Option`: a probe that
raises is handled exactly like a probe that yields no filename (the
inner handler absorbs it and resolution degrades to `none`), and the
empty address resolves to `none`.  The remaining steps of the model are
total Lean functions, so no input can make the resolver fail. -/
theorem c8_resolver_total_degrades_to_none (url : Str)
    (probe : Except Unit (Option Str)) :
    get_filename_from_url url (Except.error ()) =
      get_filename_from_url url (Except.ok none) ∧
    get_filename_from_url [] probe = none := by
  constructor
  · by_cases h : url = []
    · simp [get_filename_from_url, h]
    · simp only [get_filename_from_url, if_neg h]
  · rfl

/-- C9: a size sample that raises is treated as equal to the previous
size, so a new file that exists at the head of the stability loop and
then disappears (every sample raises) passes the whole stability window
and is returned by the poll cycle as a completed download. -/
theorem c9_vanished_file_still_returned (checks : Nat) (c : PollCycle)
    (before : List Str) (fn : Str) (sz : Int) (probe : Except Unit (Option Str))
    (hnew : newFilesOf before c = [fn])
    (htemp : tempName fn = false)
    (hsz : c.initSize fn = some sz)
    (hvanish : ∀ i, c.samples fn i = none) :
    stableScan checks sz (c.samples fn) 0 = true ∧
    cycleStep before none probe checks c = some fn := by
  have hscan : ∀ k i, stableScan k sz (c.samples fn) i = true := by
    intro k
    induction k with
    | zero => intro i; rfl
    | succ n ih =>
      intro i
      unfold stableScan
      rw [hvanish i]
      simpa using ih (i + 1)
  refine ⟨hscan checks 0, ?_⟩
  simp only [cycleStep, hnew]
  simp [List.any_cons, htemp, firstStable, hsz, hscan checks 0]

/-- C9 witness: the concrete cycle `vanishCycle`. -/
theorem c9_vanished_file_still_returned_witness :
    stableScan 3 5 (vanishCycle.samples (("video.rar").toList)) 0 = true ∧
    cycleStep [] none probeNone 3 vanishCycle = some (("video.rar").toList) :=
  c9_vanished_file_still_returned 3 vanishCycle [] (("video.rar").toList) 5 probeNone
    (by decide) (by decide) (by decide) (fun _ => rfl)

/-- C10: the existing-file matcher is total at its interface: a
directory listing that raises produces `none` (no match, not an
error), and with a successful listing the result is either `none` or
one of the listed entries. -/
theorem c10_matcher_total (url : Str) (probe : Except Unit (Option Str))
    (files : List Str) :
    check_file_exists (Except.error ()) url probe = none ∧
    (check_file_exists (Except.ok files) url probe = none ∨
      ∃ f ∈ files, check_file_exists (Except.ok files) url probe = some f) := by
  constructor
  · cases hg : get_filename_from_url url probe with
    | none => simp only [check_file_exists, hg]
    | some hint0 =>
      simp only [check_file_exists, hg]
      by_cases he : (splitext (pystrip hint0)).2 = [] <;> simp [he]
  · cases hg : get_filename_from_url url probe with
    | none => exact Or.inl (by simp only [check_file_exists, hg])
    | some hint0 =>
      simp only [check_file_exists, hg]
      by_cases he : (splitext (pystrip hint0)).2 = []
      · rw [if_pos he]
        exact Or.inl rfl
      · rw [if_neg he]
        cases hf : files.find?
            (fun f => patternMatch (splitext (pystrip hint0)).1 (splitext (pystrip hint0)).2 f) with
        | some f =>
          exact Or.inr ⟨f, List.mem_of_find?_eq_some hf, rfl⟩
        | none =>
          cases hfb : fallbackScan (splitext (pystrip hint0)).1 (splitext (pystrip hint0)).2 files with
          | none => exact Or.inl rfl
          | some f => exact Or.inr ⟨f, fallbackScan_mem hfb, rfl⟩

end Repacks
